import Mathlib

/-!
Verification of the policy-condition aggregation core of kubernetes-nmstate
(`pkg/policyconditions/conditions.go`).

The Go source under `src/pkg/policyconditions/conditions.go` is embedded
shallowly below.  Helpers that the file calls but that live outside the
provided sources (`ConditionList.Set` from the shared API package, the
enactment counter `enactmentconditions.Count`, the node-eligibility lister
`node.NodesRunningNmstate`, and the client-go `retry.RetryOnConflict`
executor) are modelled from the specification, with a doc comment marking
each such definition.
-/

namespace PolicyConditions

/-- Condition type enum: the two policy condition types used by the core
(`Available`, `Degraded`). -/
inductive ConditionType where
  | Available
  | Degraded
deriving DecidableEq, Repr

/-- Tri-state condition status, mirroring `corev1.ConditionStatus` values
`True`, `False`, `Unknown`. -/
inductive ConditionStatus where
  | statusTrue
  | statusFalse
  | statusUnknown
deriving DecidableEq, Repr

/-- Condition reason values recognized by the core. -/
inductive ConditionReason where
  | ConfigurationProgressing
  | SuccessfullyConfigured
  | ConfigurationNoMatchingNode
  | FailedToConfigure
  | ConfigurationAborted
deriving DecidableEq, Repr

/-- A status condition: type, status, reason, message and the two
timestamps (modelled as natural numbers). -/
structure Condition where
  condType : ConditionType
  status : ConditionStatus
  reason : ConditionReason
  message : String
  lastTransitionTime : Nat
  lastHeartbeatTime : Nat
deriving DecidableEq, Repr

/-- An ordered list of conditions, unique by type when built through
`setCondition`. -/
abbrev ConditionList := List Condition

/-- Find the first condition of the given type (the `Find` helper of the
shared API package). -/
def findCondition (conditions : ConditionList) (t : ConditionType) : Option Condition :=
  List.find? (fun c => c.condType = t) conditions

/-- Modelled from the spec: `ConditionList.Set(type, status, reason, message)`
from the shared API package (not under `src/`).  "if a condition of that
`type` exists, update status/reason/message/heartbeat in place (bump
transition time only if status differs); else append a new condition with
both timestamps set to now."  The current time is passed explicitly. -/
def setCondition (conditions : ConditionList) (t : ConditionType) (s : ConditionStatus)
    (r : ConditionReason) (m : String) (now : Nat) : ConditionList :=
  match conditions with
  | [] => [⟨t, s, r, m, now, now⟩]
  | c :: rest =>
    if c.condType = t then
      { c with
        status := s
        reason := r
        message := m
        lastTransitionTime := if c.status = s then c.lastTransitionTime else now
        lastHeartbeatTime := now } :: rest
    else
      c :: setCondition rest t s r m now

/-- Status of the condition of a given type, if present. -/
def statusOf (conditions : ConditionList) (t : ConditionType) : Option ConditionStatus :=
  (findCondition conditions t).map Condition.status

/-- Reason of the condition of a given type, if present. -/
def reasonOf (conditions : ConditionList) (t : ConditionType) : Option ConditionReason :=
  (findCondition conditions t).map Condition.reason

/-- Message of the condition of a given type, if present. -/
def messageOf (conditions : ConditionList) (t : ConditionType) : Option String :=
  (findCondition conditions t).map Condition.message

/-- `SetPolicyProgressing` from `conditions.go`: Degraded=Unknown and
Available=Unknown with reason `ConfigurationProgressing`; the message goes
on the Available condition only. -/
def SetPolicyProgressing (conditions : ConditionList) (message : String) (now : Nat) :
    ConditionList :=
  setCondition
    (setCondition conditions .Degraded .statusUnknown .ConfigurationProgressing "" now)
    .Available .statusUnknown .ConfigurationProgressing message now

/-- `SetPolicySuccess` from `conditions.go`: Degraded=False and
Available=True with reason `SuccessfullyConfigured`; the message goes on
the Available condition only. -/
def SetPolicySuccess (conditions : ConditionList) (message : String) (now : Nat) :
    ConditionList :=
  setCondition
    (setCondition conditions .Degraded .statusFalse .SuccessfullyConfigured "" now)
    .Available .statusTrue .SuccessfullyConfigured message now

/-- `SetPolicyNotMatching` from `conditions.go`: Degraded=False and
Available=True with reason `ConfigurationNoMatchingNode`; the message goes
on both conditions. -/
def SetPolicyNotMatching (conditions : ConditionList) (message : String) (now : Nat) :
    ConditionList :=
  setCondition
    (setCondition conditions .Degraded .statusFalse .ConfigurationNoMatchingNode message now)
    .Available .statusTrue .ConfigurationNoMatchingNode message now

/-- `SetPolicyFailedToConfigure` from `conditions.go`: Degraded=True and
Available=False with reason `FailedToConfigure`; the message goes on the
Degraded condition only. -/
def SetPolicyFailedToConfigure (conditions : ConditionList) (message : String) (now : Nat) :
    ConditionList :=
  setCondition
    (setCondition conditions .Degraded .statusTrue .FailedToConfigure message now)
    .Available .statusFalse .FailedToConfigure "" now

/-- One node's enactment record for a policy: the fields the aggregation
core reads (node name, policy name, observed generation, conditions). -/
structure Enactment where
  nodeName : String
  policyName : String
  observedGeneration : Int
  conditions : ConditionList
deriving DecidableEq, Repr

/-- Bucketed counts of current enactments, one classification pass:
`{available, failed, notMatching, aborted, matching, progressing}`. -/
structure EnactmentCount where
  available : Nat
  failed : Nat
  notMatching : Nat
  aborted : Nat
  matching : Nat
  progressing : Nat
deriving DecidableEq, Repr

/-- Modelled from the spec: the classification of one current enactment by
`enactmentconditions.Count` (not under `src/`): inspect the
`Available`-type condition reason; `SuccessfullyConfigured` with status
True is available, `FailedToConfigure` is failed,
`ConfigurationNoMatchingNode` is notMatching, `ConfigurationAborted` is
aborted, anything else is progressing. -/
def classifyEnactment (e : Enactment) : EnactmentCount → EnactmentCount :=
  match findCondition e.conditions .Available with
  | some c =>
    if c.reason = .SuccessfullyConfigured ∧ c.status = .statusTrue then
      fun acc => { acc with available := acc.available + 1 }
    else if c.reason = .FailedToConfigure then
      fun acc => { acc with failed := acc.failed + 1 }
    else if c.reason = .ConfigurationNoMatchingNode then
      fun acc => { acc with notMatching := acc.notMatching + 1 }
    else if c.reason = .ConfigurationAborted then
      fun acc => { acc with aborted := acc.aborted + 1 }
    else
      fun acc => { acc with progressing := acc.progressing + 1 }
  | none => fun acc => { acc with progressing := acc.progressing + 1 }

/-- Modelled from the spec: `enactmentconditions.Count(enactments,
policyGeneration)` (not under `src/`).  Enactments whose
`observedGeneration` differs from the policy generation are excluded from
every bucket; `matching` is the total number counted minus `notMatching`. -/
def count (enactments : List Enactment) (generation : Int) : EnactmentCount :=
  let buckets := enactments.foldl
    (fun acc e => if e.observedGeneration = generation then classifyEnactment e acc else acc)
    ⟨0, 0, 0, 0, 0, 0⟩
  { buckets with
    matching := buckets.available + buckets.failed + buckets.aborted + buckets.progressing }

/-- The decision-and-set step of `Update` (`conditions.go` lines 121-140):
compute the number of finished enactments, then pick Progressing,
NotMatching, FailedToConfigure or Success and apply it to the condition
list, with the messages built exactly as the `fmt.Sprintf` calls do. -/
def updateConditions (conditions : ConditionList) (enactmentsCount : EnactmentCount)
    (numberOfNmstateNodes : Nat) (now : Nat) : ConditionList :=
  let numberOfFinishedEnactments := enactmentsCount.available + enactmentsCount.failed +
    enactmentsCount.notMatching + enactmentsCount.aborted
  if numberOfFinishedEnactments < numberOfNmstateNodes then
    SetPolicyProgressing conditions
      ("Policy is progressing " ++ toString numberOfFinishedEnactments ++ "/" ++
        toString numberOfNmstateNodes ++ " nodes finished") now
  else
    if enactmentsCount.matching = 0 then
      SetPolicyNotMatching conditions "Policy does not match any node" now
    else if 0 < enactmentsCount.failed ∨ 0 < enactmentsCount.aborted then
      let message := toString enactmentsCount.failed ++ "/" ++
        toString enactmentsCount.matching ++ " nodes failed to configure"
      let message := if 0 < enactmentsCount.aborted then
          message ++ ", " ++ toString enactmentsCount.aborted ++ " nodes aborted configuration"
        else message
      SetPolicyFailedToConfigure conditions message now
    else
      SetPolicySuccess conditions
        (toString enactmentsCount.available ++ "/" ++ toString enactmentsCount.available ++
          " nodes successfully configured") now

/-- A policy object: name, generation, opaque spec and the status
conditions the core owns. -/
structure Policy where
  name : String
  generation : Int
  spec : String
  statusConditions : ConditionList
deriving DecidableEq, Repr

/-- An error returned by the object store or produced by wrapping, with a
flag telling whether `apierrors.IsConflict` holds for it. -/
structure GoError where
  isConflict : Bool
  msg : String
deriving DecidableEq, Repr

/-- `errors.Wrap(err, message)`: prepends context to the message; the
conflict classification of the underlying error is preserved. -/
def wrap (e : GoError) (message : String) : GoError :=
  ⟨e.isConflict, message ++ ": " ++ e.msg⟩

/-- Outcome of a status write attempt against the store. -/
inductive WriteResult where
  | ok
  | writeErr (e : GoError)
deriving DecidableEq, Repr

/-- What the store and the node lister return during one attempt of the
retry loop: the policy fetch, the label-filtered enactment list, the list
of nodes running the nmstate handler, the status-write outcome, and the
wall-clock time of the attempt. -/
structure AttemptData where
  getPolicy : Except GoError Policy
  listEnactments : Except GoError (List Enactment)
  listNodes : Except GoError (List String)
  writeResult : WriteResult
  now : Nat
deriving Repr

/-- One attempt of the `Update` retry closure (`conditions.go` lines
96-151): fetch the policy, list its enactments, list the eligible nodes
(each failure wrapped with its context message), recompute the conditions
and write the status; a successful write yields the persisted policy. -/
def updateBody (a : AttemptData) : Except GoError Policy :=
  match a.getPolicy with
  | .error e => .error (wrap e "getting policy failed")
  | .ok policy =>
    match a.listEnactments with
    | .error e => .error (wrap e "getting enactments failed")
    | .ok enactments =>
      match a.listNodes with
      | .error e => .error (wrap e "getting nodes running kubernets-nmstate pods failed")
      | .ok nmstateNodes =>
        let numberOfNmstateNodes := nmstateNodes.length
        let enactmentsCount := count enactments policy.generation
        let newPolicy := { policy with
          statusConditions :=
            updateConditions policy.statusConditions enactmentsCount numberOfNmstateNodes a.now }
        match a.writeResult with
        | .ok => .ok newPolicy
        | .writeErr e => .error e

/-- One attempt of the `Reset` retry closure (`conditions.go` lines
158-173): fetch the policy, replace its status conditions by the empty
list and write the status. -/
def resetBody (a : AttemptData) : Except GoError Policy :=
  match a.getPolicy with
  | .error e => .error (wrap e "getting policy failed")
  | .ok policy =>
    let newPolicy := { policy with statusConditions := ([] : ConditionList) }
    match a.writeResult with
    | .ok => .ok newPolicy
    | .writeErr e => .error e

/-- The error `wait.ExponentialBackoff` reports when the retry budget is
exhausted without the body ever returning a retriable error. -/
def errWaitTimeout : GoError := ⟨false, "timed out waiting for the condition"⟩

/-- Modelled from the spec: `retry.RetryOnConflict(retry.DefaultRetry, fn)`
(client-go, not under `src/`): run the body; stop on success or on a
non-conflict error; on a conflict error retry with freshly fetched state,
up to the step budget, surfacing the last conflict error when the budget
is exhausted.  The second component is the policy persisted by the one
successful write, if any. -/
def runRetry (body : Nat → Except GoError Policy) :
    Nat → Nat → Option GoError → Except GoError Unit × Option Policy
  | 0, _, lastErr => (.error (lastErr.getD errWaitTimeout), none)
  | steps + 1, i, _ =>
    match body i with
    | .ok p => (.ok (), some p)
    | .error e =>
      if e.isConflict then runRetry body steps (i + 1) (some e)
      else (.error e, none)

/-- The step budget of `retry.DefaultRetry` (client-go): 5 attempts. -/
def defaultRetrySteps : Nat := 5

/-- `Update(cli, policyKey)` (`conditions.go` lines 90-153): the retry-on-
conflict loop around `updateBody`, the environment supplying what the
store returns on each attempt. -/
def Update (env : Nat → AttemptData) : Except GoError Unit × Option Policy :=
  runRetry (fun i => updateBody (env i)) defaultRetrySteps 0 none

/-- `Reset(cli, policyKey)` (`conditions.go` lines 155-175): the retry-on-
conflict loop around `resetBody`. -/
def Reset (env : Nat → AttemptData) : Except GoError Unit × Option Policy :=
  runRetry (fun i => resetBody (env i)) defaultRetrySteps 0 none

/-- After `setCondition` for type `t`, the condition found at `t` carries
exactly the status, reason and message just set. -/
theorem setCondition_find_self (l : ConditionList) (t : ConditionType) (s : ConditionStatus)
    (r : ConditionReason) (m : String) (now : Nat) :
    statusOf (setCondition l t s r m now) t = some s ∧
    reasonOf (setCondition l t s r m now) t = some r ∧
    messageOf (setCondition l t s r m now) t = some m := by
  induction l with
  | nil =>
    simp [setCondition, statusOf, reasonOf, messageOf, findCondition]
  | cons c rest ih =>
    by_cases h : c.condType = t
    · simp [setCondition, h, statusOf, reasonOf, messageOf, findCondition]
    · simpa [setCondition, h, statusOf, reasonOf, messageOf, findCondition] using ih

/-- `setCondition` for type `t` leaves the condition found at any other
type unchanged. -/
theorem setCondition_find_other (l : ConditionList) (t tOther : ConditionType)
    (h : tOther ≠ t) (s : ConditionStatus) (r : ConditionReason) (m : String) (now : Nat) :
    findCondition (setCondition l t s r m now) tOther = findCondition l tOther := by
  induction l with
  | nil =>
    simp [setCondition, findCondition, Ne.symm h]
  | cons c rest ih =>
    by_cases hc : c.condType = t
    · have hc2 : ¬(c.condType = tOther) := fun hh => h (hh ▸ hc)
      simp [setCondition, hc, findCondition, hc2, Ne.symm h]
    · by_cases hc2 : c.condType = tOther
      · simp [setCondition, hc, findCondition, hc2, h]
      · simpa [setCondition, hc, findCondition, hc2, h] using ih

/-- Full characterization of `SetPolicyProgressing`: Degraded Unknown with
empty message, Available Unknown with the given message, both with reason
`ConfigurationProgressing`. -/
theorem SetPolicyProgressing_spec (conds : ConditionList) (msg : String) (now : Nat) :
    statusOf (SetPolicyProgressing conds msg now) .Degraded = some .statusUnknown ∧
    reasonOf (SetPolicyProgressing conds msg now) .Degraded =
      some .ConfigurationProgressing ∧
    messageOf (SetPolicyProgressing conds msg now) .Degraded = some "" ∧
    statusOf (SetPolicyProgressing conds msg now) .Available = some .statusUnknown ∧
    reasonOf (SetPolicyProgressing conds msg now) .Available =
      some .ConfigurationProgressing ∧
    messageOf (SetPolicyProgressing conds msg now) .Available = some msg := by
  unfold SetPolicyProgressing
  have hinner := setCondition_find_self conds .Degraded .statusUnknown
    .ConfigurationProgressing "" now
  have houter := setCondition_find_self
    (setCondition conds .Degraded .statusUnknown .ConfigurationProgressing "" now)
    .Available .statusUnknown .ConfigurationProgressing msg now
  have hother := setCondition_find_other
    (setCondition conds .Degraded .statusUnknown .ConfigurationProgressing "" now)
    .Available .Degraded (by decide) .statusUnknown .ConfigurationProgressing msg now
  exact ⟨by simpa [statusOf, hother] using hinner.1,
    by simpa [reasonOf, hother] using hinner.2.1,
    by simpa [messageOf, hother] using hinner.2.2,
    houter.1, houter.2.1, houter.2.2⟩

/-- Full characterization of `SetPolicySuccess`: Degraded False with empty
message, Available True with the given message, both with reason
`SuccessfullyConfigured`. -/
theorem SetPolicySuccess_spec (conds : ConditionList) (msg : String) (now : Nat) :
    statusOf (SetPolicySuccess conds msg now) .Degraded = some .statusFalse ∧
    reasonOf (SetPolicySuccess conds msg now) .Degraded = some .SuccessfullyConfigured ∧
    messageOf (SetPolicySuccess conds msg now) .Degraded = some "" ∧
    statusOf (SetPolicySuccess conds msg now) .Available = some .statusTrue ∧
    reasonOf (SetPolicySuccess conds msg now) .Available = some .SuccessfullyConfigured ∧
    messageOf (SetPolicySuccess conds msg now) .Available = some msg := by
  unfold SetPolicySuccess
  have hinner := setCondition_find_self conds .Degraded .statusFalse
    .SuccessfullyConfigured "" now
  have houter := setCondition_find_self
    (setCondition conds .Degraded .statusFalse .SuccessfullyConfigured "" now)
    .Available .statusTrue .SuccessfullyConfigured msg now
  have hother := setCondition_find_other
    (setCondition conds .Degraded .statusFalse .SuccessfullyConfigured "" now)
    .Available .Degraded (by decide) .statusTrue .SuccessfullyConfigured msg now
  exact ⟨by simpa [statusOf, hother] using hinner.1,
    by simpa [reasonOf, hother] using hinner.2.1,
    by simpa [messageOf, hother] using hinner.2.2,
    houter.1, houter.2.1, houter.2.2⟩

/-- Full characterization of `SetPolicyNotMatching`: Degraded False and
Available True, both with reason `ConfigurationNoMatchingNode` and both
carrying the given message. -/
theorem SetPolicyNotMatching_spec (conds : ConditionList) (msg : String) (now : Nat) :
    statusOf (SetPolicyNotMatching conds msg now) .Degraded = some .statusFalse ∧
    reasonOf (SetPolicyNotMatching conds msg now) .Degraded =
      some .ConfigurationNoMatchingNode ∧
    messageOf (SetPolicyNotMatching conds msg now) .Degraded = some msg ∧
    statusOf (SetPolicyNotMatching conds msg now) .Available = some .statusTrue ∧
    reasonOf (SetPolicyNotMatching conds msg now) .Available =
      some .ConfigurationNoMatchingNode ∧
    messageOf (SetPolicyNotMatching conds msg now) .Available = some msg := by
  unfold SetPolicyNotMatching
  have hinner := setCondition_find_self conds .Degraded .statusFalse
    .ConfigurationNoMatchingNode msg now
  have houter := setCondition_find_self
    (setCondition conds .Degraded .statusFalse .ConfigurationNoMatchingNode msg now)
    .Available .statusTrue .ConfigurationNoMatchingNode msg now
  have hother := setCondition_find_other
    (setCondition conds .Degraded .statusFalse .ConfigurationNoMatchingNode msg now)
    .Available .Degraded (by decide) .statusTrue .ConfigurationNoMatchingNode msg now
  exact ⟨by simpa [statusOf, hother] using hinner.1,
    by simpa [reasonOf, hother] using hinner.2.1,
    by simpa [messageOf, hother] using hinner.2.2,
    houter.1, houter.2.1, houter.2.2⟩

/-- Full characterization of `SetPolicyFailedToConfigure`: Degraded True
with the given message, Available False with empty message, both with
reason `FailedToConfigure`. -/
theorem SetPolicyFailedToConfigure_spec (conds : ConditionList) (msg : String) (now : Nat) :
    statusOf (SetPolicyFailedToConfigure conds msg now) .Degraded = some .statusTrue ∧
    reasonOf (SetPolicyFailedToConfigure conds msg now) .Degraded =
      some .FailedToConfigure ∧
    messageOf (SetPolicyFailedToConfigure conds msg now) .Degraded = some msg ∧
    statusOf (SetPolicyFailedToConfigure conds msg now) .Available = some .statusFalse ∧
    reasonOf (SetPolicyFailedToConfigure conds msg now) .Available =
      some .FailedToConfigure ∧
    messageOf (SetPolicyFailedToConfigure conds msg now) .Available = some "" := by
  unfold SetPolicyFailedToConfigure
  have hinner := setCondition_find_self conds .Degraded .statusTrue
    .FailedToConfigure msg now
  have houter := setCondition_find_self
    (setCondition conds .Degraded .statusTrue .FailedToConfigure msg now)
    .Available .statusFalse .FailedToConfigure "" now
  have hother := setCondition_find_other
    (setCondition conds .Degraded .statusTrue .FailedToConfigure msg now)
    .Available .Degraded (by decide) .statusFalse .FailedToConfigure "" now
  exact ⟨by simpa [statusOf, hother] using hinner.1,
    by simpa [reasonOf, hother] using hinner.2.1,
    by simpa [messageOf, hother] using hinner.2.2,
    houter.1, houter.2.1, houter.2.2⟩

/-- C1: whenever the number of finished enactments (available + failed +
notMatching + aborted, counted over current-generation enactments) is
strictly below the eligible-node count, `Update` sets both Degraded and
Available to status Unknown with reason `ConfigurationProgressing`,
regardless of the failed and aborted counts, and the Available message
states `finished/eligible` nodes finished. -/
theorem update_progressing_when_unfinished (conds : ConditionList) (cnt : EnactmentCount)
    (n now : Nat) (h : cnt.available + cnt.failed + cnt.notMatching + cnt.aborted < n) :
    statusOf (updateConditions conds cnt n now) .Degraded = some .statusUnknown ∧
    reasonOf (updateConditions conds cnt n now) .Degraded =
      some .ConfigurationProgressing ∧
    statusOf (updateConditions conds cnt n now) .Available = some .statusUnknown ∧
    reasonOf (updateConditions conds cnt n now) .Available =
      some .ConfigurationProgressing ∧
    messageOf (updateConditions conds cnt n now) .Available =
      some ("Policy is progressing " ++
        toString (cnt.available + cnt.failed + cnt.notMatching + cnt.aborted) ++ "/" ++
        toString n ++ " nodes finished") := by
  have heq : updateConditions conds cnt n now =
      SetPolicyProgressing conds
        ("Policy is progressing " ++
          toString (cnt.available + cnt.failed + cnt.notMatching + cnt.aborted) ++ "/" ++
          toString n ++ " nodes finished") now := by
    unfold updateConditions
    simp [h]
  rw [heq]
  have hs := SetPolicyProgressing_spec conds
    ("Policy is progressing " ++
      toString (cnt.available + cnt.failed + cnt.notMatching + cnt.aborted) ++ "/" ++
      toString n ++ " nodes finished") now
  exact ⟨hs.1, hs.2.1, hs.2.2.2.1, hs.2.2.2.2.1, hs.2.2.2.2.2⟩

/-- Witness for C1: one finished enactment out of two eligible nodes,
with a failed and an aborted enactment among the finished counts. -/
theorem update_progressing_when_unfinished_witness :
    (⟨0, 1, 0, 1, 2, 0⟩ : EnactmentCount).available +
      (⟨0, 1, 0, 1, 2, 0⟩ : EnactmentCount).failed +
      (⟨0, 1, 0, 1, 2, 0⟩ : EnactmentCount).notMatching +
      (⟨0, 1, 0, 1, 2, 0⟩ : EnactmentCount).aborted < 3 ∧
    statusOf (updateConditions [] ⟨0, 1, 0, 1, 2, 0⟩ 3 0) .Degraded =
      some .statusUnknown ∧
    messageOf (updateConditions [] ⟨0, 1, 0, 1, 2, 0⟩ 3 0) .Available =
      some "Policy is progressing 2/3 nodes finished" :=
  ⟨by decide,
    (update_progressing_when_unfinished [] ⟨0, 1, 0, 1, 2, 0⟩ 3 0 (by decide)).1,
    (update_progressing_when_unfinished [] ⟨0, 1, 0, 1, 2, 0⟩ 3 0 (by decide)).2.2.2.2⟩

/-- C2: when all eligible nodes have finished, the matching count is
positive and failed or aborted is positive, `Update` sets Degraded=True
and Available=False with reason `FailedToConfigure`; the message reports
`failed/matching` nodes failed to configure with the aborted clause
appended exactly when the aborted count is nonzero. -/
theorem update_failed_to_configure (conds : ConditionList) (cnt : EnactmentCount)
    (n now : Nat)
    (hfin : n ≤ cnt.available + cnt.failed + cnt.notMatching + cnt.aborted)
    (hm : 0 < cnt.matching) (hfa : 0 < cnt.failed ∨ 0 < cnt.aborted) :
    statusOf (updateConditions conds cnt n now) .Degraded = some .statusTrue ∧
    reasonOf (updateConditions conds cnt n now) .Degraded = some .FailedToConfigure ∧
    statusOf (updateConditions conds cnt n now) .Available = some .statusFalse ∧
    reasonOf (updateConditions conds cnt n now) .Available = some .FailedToConfigure ∧
    messageOf (updateConditions conds cnt n now) .Degraded =
      some (if 0 < cnt.aborted then
          toString cnt.failed ++ "/" ++ toString cnt.matching ++
            " nodes failed to configure" ++ ", " ++ toString cnt.aborted ++
            " nodes aborted configuration"
        else
          toString cnt.failed ++ "/" ++ toString cnt.matching ++
            " nodes failed to configure") := by
  have h1 : ¬(cnt.available + cnt.failed + cnt.notMatching + cnt.aborted < n) :=
    Nat.not_lt.mpr hfin
  have h2 : ¬(cnt.matching = 0) := Nat.pos_iff_ne_zero.mp hm
  have heq : updateConditions conds cnt n now =
      SetPolicyFailedToConfigure conds
        (if 0 < cnt.aborted then
            toString cnt.failed ++ "/" ++ toString cnt.matching ++
              " nodes failed to configure" ++ ", " ++ toString cnt.aborted ++
              " nodes aborted configuration"
          else
            toString cnt.failed ++ "/" ++ toString cnt.matching ++
              " nodes failed to configure") now := by
    unfold updateConditions
    simp [h1, h2, hfa]
  rw [heq]
  have hs := SetPolicyFailedToConfigure_spec conds
    (if 0 < cnt.aborted then
        toString cnt.failed ++ "/" ++ toString cnt.matching ++
          " nodes failed to configure" ++ ", " ++ toString cnt.aborted ++
          " nodes aborted configuration"
      else
        toString cnt.failed ++ "/" ++ toString cnt.matching ++
          " nodes failed to configure") now
  exact ⟨hs.1, hs.2.1, hs.2.2.2.1, hs.2.2.2.2.1, hs.2.2.1⟩

/-- Witness for C2: eligible=4, matching=3, failed=1, aborted=1,
notMatching=1, available=1, all finished: the message is
"1/3 nodes failed to configure, 1 nodes aborted configuration". -/
theorem update_failed_to_configure_witness :
    (4 ≤ (⟨1, 1, 1, 1, 3, 0⟩ : EnactmentCount).available +
      (⟨1, 1, 1, 1, 3, 0⟩ : EnactmentCount).failed +
      (⟨1, 1, 1, 1, 3, 0⟩ : EnactmentCount).notMatching +
      (⟨1, 1, 1, 1, 3, 0⟩ : EnactmentCount).aborted) ∧
    0 < (⟨1, 1, 1, 1, 3, 0⟩ : EnactmentCount).matching ∧
    (0 < (⟨1, 1, 1, 1, 3, 0⟩ : EnactmentCount).failed ∨
      0 < (⟨1, 1, 1, 1, 3, 0⟩ : EnactmentCount).aborted) ∧
    statusOf (updateConditions [] ⟨1, 1, 1, 1, 3, 0⟩ 4 0) .Degraded = some .statusTrue ∧
    messageOf (updateConditions [] ⟨1, 1, 1, 1, 3, 0⟩ 4 0) .Degraded =
      some "1/3 nodes failed to configure, 1 nodes aborted configuration" :=
  ⟨by decide, by decide, by decide,
    (update_failed_to_configure [] ⟨1, 1, 1, 1, 3, 0⟩ 4 0 (by decide) (by decide)
      (by decide)).1,
    (update_failed_to_configure [] ⟨1, 1, 1, 1, 3, 0⟩ 4 0 (by decide) (by decide)
      (by decide)).2.2.2.2⟩

/-- C3: when all eligible nodes have finished and the matching count is
zero, `Update` sets Degraded=False and Available=True with reason
`ConfigurationNoMatchingNode` and message "Policy does not match any
node"; this branch is taken for every such count, whatever the failed and
aborted counts, so it has priority over the failed/aborted check. -/
theorem update_not_matching_priority (conds : ConditionList) (cnt : EnactmentCount)
    (n now : Nat)
    (hfin : n ≤ cnt.available + cnt.failed + cnt.notMatching + cnt.aborted)
    (hm : cnt.matching = 0) :
    statusOf (updateConditions conds cnt n now) .Degraded = some .statusFalse ∧
    reasonOf (updateConditions conds cnt n now) .Degraded =
      some .ConfigurationNoMatchingNode ∧
    statusOf (updateConditions conds cnt n now) .Available = some .statusTrue ∧
    reasonOf (updateConditions conds cnt n now) .Available =
      some .ConfigurationNoMatchingNode ∧
    messageOf (updateConditions conds cnt n now) .Degraded =
      some "Policy does not match any node" ∧
    messageOf (updateConditions conds cnt n now) .Available =
      some "Policy does not match any node" := by
  have h1 : ¬(cnt.available + cnt.failed + cnt.notMatching + cnt.aborted < n) :=
    Nat.not_lt.mpr hfin
  have heq : updateConditions conds cnt n now =
      SetPolicyNotMatching conds "Policy does not match any node" now := by
    unfold updateConditions
    simp [h1, hm]
  rw [heq]
  have hs := SetPolicyNotMatching_spec conds "Policy does not match any node" now
  exact ⟨hs.1, hs.2.1, hs.2.2.2.1, hs.2.2.2.2.1, hs.2.2.1, hs.2.2.2.2.2⟩

/-- Witness for C3: two eligible nodes, both finished as not matching, and
even a nonzero failed count does not override the NotMatching verdict. -/
theorem update_not_matching_priority_witness :
    (2 ≤ (⟨0, 1, 2, 0, 0, 0⟩ : EnactmentCount).available +
      (⟨0, 1, 2, 0, 0, 0⟩ : EnactmentCount).failed +
      (⟨0, 1, 2, 0, 0, 0⟩ : EnactmentCount).notMatching +
      (⟨0, 1, 2, 0, 0, 0⟩ : EnactmentCount).aborted) ∧
    (⟨0, 1, 2, 0, 0, 0⟩ : EnactmentCount).matching = 0 ∧
    statusOf (updateConditions [] ⟨0, 1, 2, 0, 0, 0⟩ 2 0) .Degraded =
      some .statusFalse ∧
    reasonOf (updateConditions [] ⟨0, 1, 2, 0, 0, 0⟩ 2 0) .Degraded =
      some .ConfigurationNoMatchingNode :=
  ⟨by decide, by decide,
    (update_not_matching_priority [] ⟨0, 1, 2, 0, 0, 0⟩ 2 0 (by decide) (by decide)).1,
    (update_not_matching_priority [] ⟨0, 1, 2, 0, 0, 0⟩ 2 0 (by decide)
      (by decide)).2.1⟩

/-- C4: when all eligible nodes have finished, matching is positive and
failed and aborted are both zero, `Update` sets Degraded=False and
Available=True with reason `SuccessfullyConfigured`, and the Available
message is `available/available nodes successfully configured` with the
same available count in both positions. -/
theorem update_success_message (conds : ConditionList) (cnt : EnactmentCount)
    (n now : Nat)
    (hfin : n ≤ cnt.available + cnt.failed + cnt.notMatching + cnt.aborted)
    (hm : 0 < cnt.matching) (hf : cnt.failed = 0) (ha : cnt.aborted = 0) :
    statusOf (updateConditions conds cnt n now) .Degraded = some .statusFalse ∧
    reasonOf (updateConditions conds cnt n now) .Degraded =
      some .SuccessfullyConfigured ∧
    statusOf (updateConditions conds cnt n now) .Available = some .statusTrue ∧
    reasonOf (updateConditions conds cnt n now) .Available =
      some .SuccessfullyConfigured ∧
    messageOf (updateConditions conds cnt n now) .Available =
      some (toString cnt.available ++ "/" ++ toString cnt.available ++
        " nodes successfully configured") := by
  have h1 : ¬(cnt.available + cnt.failed + cnt.notMatching + cnt.aborted < n) :=
    Nat.not_lt.mpr hfin
  have h2 : ¬(cnt.matching = 0) := Nat.pos_iff_ne_zero.mp hm
  have h3 : ¬(0 < cnt.failed ∨ 0 < cnt.aborted) := by
    simp [hf, ha]
  have heq : updateConditions conds cnt n now =
      SetPolicySuccess conds
        (toString cnt.available ++ "/" ++ toString cnt.available ++
          " nodes successfully configured") now := by
    unfold updateConditions
    simp [h1, h2, h3]
  rw [heq]
  have hs := SetPolicySuccess_spec conds
    (toString cnt.available ++ "/" ++ toString cnt.available ++
      " nodes successfully configured") now
  exact ⟨hs.1, hs.2.1, hs.2.2.2.1, hs.2.2.2.2.1, hs.2.2.2.2.2⟩

/-- Witness for C4: three eligible nodes, three available, message
"3/3 nodes successfully configured". -/
theorem update_success_message_witness :
    (3 ≤ (⟨3, 0, 0, 0, 3, 0⟩ : EnactmentCount).available +
      (⟨3, 0, 0, 0, 3, 0⟩ : EnactmentCount).failed +
      (⟨3, 0, 0, 0, 3, 0⟩ : EnactmentCount).notMatching +
      (⟨3, 0, 0, 0, 3, 0⟩ : EnactmentCount).aborted) ∧
    0 < (⟨3, 0, 0, 0, 3, 0⟩ : EnactmentCount).matching ∧
    statusOf (updateConditions [] ⟨3, 0, 0, 0, 3, 0⟩ 3 0) .Available =
      some .statusTrue ∧
    messageOf (updateConditions [] ⟨3, 0, 0, 0, 3, 0⟩ 3 0) .Available =
      some "3/3 nodes successfully configured" :=
  ⟨by decide, by decide,
    (update_success_message [] ⟨3, 0, 0, 0, 3, 0⟩ 3 0 (by decide) (by decide) (by decide)
      (by decide)).2.2.1,
    (update_success_message [] ⟨3, 0, 0, 0, 3, 0⟩ 3 0 (by decide) (by decide) (by decide)
      (by decide)).2.2.2.2⟩

/-- C9: the aggregate message is carried asymmetrically: Progressing and
Success put the message only on Available (Degraded message empty),
FailedToConfigure puts it only on Degraded (Available message empty), and
NotMatching puts the same message on both conditions. -/
theorem helper_message_placement (conds : ConditionList) (msg : String) (now : Nat) :
    messageOf (SetPolicyProgressing conds msg now) .Degraded = some "" ∧
    messageOf (SetPolicyProgressing conds msg now) .Available = some msg ∧
    messageOf (SetPolicySuccess conds msg now) .Degraded = some "" ∧
    messageOf (SetPolicySuccess conds msg now) .Available = some msg ∧
    messageOf (SetPolicyFailedToConfigure conds msg now) .Degraded = some msg ∧
    messageOf (SetPolicyFailedToConfigure conds msg now) .Available = some "" ∧
    messageOf (SetPolicyNotMatching conds msg now) .Degraded = some msg ∧
    messageOf (SetPolicyNotMatching conds msg now) .Available = some msg :=
  ⟨(SetPolicyProgressing_spec conds msg now).2.2.1,
    (SetPolicyProgressing_spec conds msg now).2.2.2.2.2,
    (SetPolicySuccess_spec conds msg now).2.2.1,
    (SetPolicySuccess_spec conds msg now).2.2.2.2.2,
    (SetPolicyFailedToConfigure_spec conds msg now).2.2.1,
    (SetPolicyFailedToConfigure_spec conds msg now).2.2.2.2.2,
    (SetPolicyNotMatching_spec conds msg now).2.2.1,
    (SetPolicyNotMatching_spec conds msg now).2.2.2.2.2⟩

/-- C10: after each of the four outcome helpers, the Degraded condition
and the Available condition carry the same reason
(`ConfigurationProgressing`, `SuccessfullyConfigured`,
`ConfigurationNoMatchingNode`, `FailedToConfigure` respectively), so the
two freshly computed reasons never disagree. -/
theorem helper_reasons_agree (conds : ConditionList) (msg : String) (now : Nat) :
    (reasonOf (SetPolicyProgressing conds msg now) .Degraded =
        some .ConfigurationProgressing ∧
      reasonOf (SetPolicyProgressing conds msg now) .Available =
        some .ConfigurationProgressing) ∧
    (reasonOf (SetPolicySuccess conds msg now) .Degraded =
        some .SuccessfullyConfigured ∧
      reasonOf (SetPolicySuccess conds msg now) .Available =
        some .SuccessfullyConfigured) ∧
    (reasonOf (SetPolicyNotMatching conds msg now) .Degraded =
        some .ConfigurationNoMatchingNode ∧
      reasonOf (SetPolicyNotMatching conds msg now) .Available =
        some .ConfigurationNoMatchingNode) ∧
    (reasonOf (SetPolicyFailedToConfigure conds msg now) .Degraded =
        some .FailedToConfigure ∧
      reasonOf (SetPolicyFailedToConfigure conds msg now) .Available =
        some .FailedToConfigure) :=
  ⟨⟨(SetPolicyProgressing_spec conds msg now).2.1,
      (SetPolicyProgressing_spec conds msg now).2.2.2.2.1⟩,
    ⟨(SetPolicySuccess_spec conds msg now).2.1,
      (SetPolicySuccess_spec conds msg now).2.2.2.2.1⟩,
    ⟨(SetPolicyNotMatching_spec conds msg now).2.1,
      (SetPolicyNotMatching_spec conds msg now).2.2.2.2.1⟩,
    ⟨(SetPolicyFailedToConfigure_spec conds msg now).2.1,
      (SetPolicyFailedToConfigure_spec conds msg now).2.2.2.2.1⟩⟩

/-- Defining equation of `runRetry` for an exhausted budget. -/
theorem runRetry_zero (body : Nat → Except GoError Policy) (i : Nat)
    (lastErr : Option GoError) :
    runRetry body 0 i lastErr = (.error (lastErr.getD errWaitTimeout), none) := rfl

/-- Defining equation of `runRetry` for a remaining step. -/
theorem runRetry_succ (body : Nat → Except GoError Policy) (steps i : Nat)
    (lastErr : Option GoError) :
    runRetry body (steps + 1) i lastErr =
      (match body i with
        | .ok p => (.ok (), some p)
        | .error e =>
          if e.isConflict then runRetry body steps (i + 1) (some e)
          else (.error e, none)) := rfl

/-- A successful body run ends the retry loop, persisting that body run's
written policy. -/
theorem runRetry_ok (body : Nat → Except GoError Policy) (steps i : Nat)
    (lastErr : Option GoError) (p : Policy) (hb : body i = .ok p) :
    runRetry body (steps + 1) i lastErr = (.ok (), some p) := by
  rw [runRetry_succ, hb]

/-- A non-conflict body error ends the retry loop with that error and
persists nothing. -/
theorem runRetry_fatal (body : Nat → Except GoError Policy) (steps i : Nat)
    (lastErr : Option GoError) (e : GoError) (hb : body i = .error e)
    (hec : e.isConflict = false) :
    runRetry body (steps + 1) i lastErr = (.error e, none) := by
  rw [runRetry_succ, hb]
  simp [hec]

/-- A conflict body error consumes one retry step and runs the body again
on the next attempt. -/
theorem runRetry_conflict_step (body : Nat → Except GoError Policy) (steps i : Nat)
    (lastErr : Option GoError) (e : GoError) (hb : body i = .error e)
    (hec : e.isConflict = true) :
    runRetry body (steps + 1) i lastErr = runRetry body steps (i + 1) (some e) := by
  rw [runRetry_succ, hb]
  simp [hec]

/-- When every attempt conflicts, any positive retry budget is exhausted
and the conflict error is surfaced with nothing persisted. -/
theorem runRetry_all_conflict (body : Nat → Except GoError Policy) (ce : GoError)
    (hce : ce.isConflict = true) (hb : ∀ i, body i = .error ce) :
    ∀ steps i lastErr, runRetry body (steps + 1) i lastErr = (.error ce, none) := by
  intro steps
  induction steps with
  | zero =>
    intro i lastErr
    rw [runRetry_conflict_step body 0 i lastErr ce (hb i) hce]
    simp [runRetry]
  | succ n ih =>
    intro i lastErr
    rw [runRetry_conflict_step body (n + 1) i lastErr ce (hb i) hce]
    exact ih (i + 1) (some ce)

/-- Whatever the retry loop persisted came from a successful body run. -/
theorem runRetry_persisted (body : Nat → Except GoError Policy) :
    ∀ steps i lastErr r p, runRetry body steps i lastErr = (r, some p) →
      ∃ j, body j = .ok p := by
  intro steps
  induction steps with
  | zero =>
    intro i lastErr r p h
    simp [runRetry] at h
  | succ n ih =>
    intro i lastErr r p h
    cases hb : body i with
    | ok q =>
      rw [runRetry_ok body n i lastErr q hb] at h
      have hqp : q = p := by
        have h2 := congrArg Prod.snd h
        simpa using h2
      exact ⟨i, by rw [hb, hqp]⟩
    | error e =>
      by_cases hec : e.isConflict
      · rw [runRetry_conflict_step body n i lastErr e hb hec] at h
        exact ih (i + 1) (some e) r p h
      · rw [runRetry_fatal body n i lastErr e hb (by simpa using hec)] at h
        simp at h

/-- C5: when the first persist attempt hits a write conflict and the
second attempt succeeds, `Update` recomputes from the second fetch: the
persisted policy is built solely from the policy, enactments, node list
and time of the second attempt, never from data read before the failed
persist. -/
theorem update_retry_uses_fresh_fetch (env : Nat → AttemptData)
    (p0 p1 : Policy) (ens0 ens1 : List Enactment) (ns0 ns1 : List String) (ce : GoError)
    (h0g : (env 0).getPolicy = .ok p0) (h0e : (env 0).listEnactments = .ok ens0)
    (h0n : (env 0).listNodes = .ok ns0) (h0w : (env 0).writeResult = .writeErr ce)
    (hce : ce.isConflict = true)
    (h1g : (env 1).getPolicy = .ok p1) (h1e : (env 1).listEnactments = .ok ens1)
    (h1n : (env 1).listNodes = .ok ns1) (h1w : (env 1).writeResult = .ok) :
    Update env = (.ok (), some { p1 with
      statusConditions := updateConditions p1.statusConditions
        (count ens1 p1.generation) ns1.length (env 1).now }) := by
  have hb0 : updateBody (env 0) = .error ce := by
    simp [updateBody, h0g, h0e, h0n, h0w]
  have hb1 : updateBody (env 1) = .ok { p1 with
      statusConditions := updateConditions p1.statusConditions
        (count ens1 p1.generation) ns1.length (env 1).now } := by
    simp [updateBody, h1g, h1e, h1n, h1w]
  show runRetry (fun i => updateBody (env i)) (4 + 1) 0 none = _
  rw [runRetry_conflict_step _ 4 0 none ce hb0 hce]
  show runRetry (fun i => updateBody (env i)) (3 + 1) 1 (some ce) = _
  rw [runRetry_ok _ 3 1 (some ce) _ hb1]

/-- A policy fixture used by the concrete executor runs. -/
def examplePolicy : Policy := ⟨"policy1", 1, "spec1", []⟩

/-- A second policy fixture, as re-fetched after a conflict. -/
def examplePolicyB : Policy := ⟨"policy1", 2, "spec2", []⟩

/-- A non-conflict store error fixture. -/
def errRead : GoError := ⟨false, "boom"⟩

/-- A conflict store error fixture. -/
def errConflict : GoError := ⟨true, "the object has been modified"⟩

/-- Environment whose first attempt write-conflicts and whose second
attempt succeeds on freshly fetched data. -/
def envConflictThenOk : Nat → AttemptData := fun i =>
  if i = 0 then ⟨.ok examplePolicy, .ok [], .ok ["node1"], .writeErr errConflict, 0⟩
  else ⟨.ok examplePolicyB, .ok [], .ok [], .ok, 1⟩

/-- Witness for C5: the persisted policy carries the second fetch's
generation, spec and attempt time, not the first fetch's. -/
theorem update_retry_uses_fresh_fetch_witness :
    (envConflictThenOk 0).writeResult = .writeErr errConflict ∧
    errConflict.isConflict = true ∧
    Update envConflictThenOk = (.ok (), some ⟨"policy1", 2, "spec2",
      [⟨.Degraded, .statusFalse, .ConfigurationNoMatchingNode,
          "Policy does not match any node", 1, 1⟩,
        ⟨.Available, .statusTrue, .ConfigurationNoMatchingNode,
          "Policy does not match any node", 1, 1⟩]⟩) :=
  ⟨rfl, rfl,
    update_retry_uses_fresh_fetch envConflictThenOk examplePolicy examplePolicyB
      [] [] ["node1"] [] errConflict rfl rfl rfl rfl rfl rfl rfl rfl rfl⟩

/-- C6: `Update` surfaces a failure of the policy fetch, the enactment
list or the node list, wrapped with its context message, persisting
nothing; a non-conflict status-write error is likewise surfaced; a
conflict write error is the only error retried locally, and when every
attempt within the five-step default budget conflicts the conflict error
is surfaced with nothing persisted. -/
theorem update_error_propagation
    (envG envE envN envW envC : Nat → AttemptData)
    (eG eE eN eW ce : GoError) (pE pN pW pC : Policy)
    (lN lW lC : List Enactment) (nW nC : List String)
    (hG : (envG 0).getPolicy = .error eG) (hGc : eG.isConflict = false)
    (hEg : (envE 0).getPolicy = .ok pE) (hEe : (envE 0).listEnactments = .error eE)
    (hEc : eE.isConflict = false)
    (hNg : (envN 0).getPolicy = .ok pN) (hNe : (envN 0).listEnactments = .ok lN)
    (hNn : (envN 0).listNodes = .error eN) (hNc : eN.isConflict = false)
    (hWg : (envW 0).getPolicy = .ok pW) (hWe : (envW 0).listEnactments = .ok lW)
    (hWn : (envW 0).listNodes = .ok nW) (hWw : (envW 0).writeResult = .writeErr eW)
    (hWc : eW.isConflict = false)
    (hC : ∀ i, (envC i).getPolicy = .ok pC ∧ (envC i).listEnactments = .ok lC ∧
      (envC i).listNodes = .ok nC ∧ (envC i).writeResult = .writeErr ce)
    (hCc : ce.isConflict = true) :
    Update envG = (.error (wrap eG "getting policy failed"), none) ∧
    Update envE = (.error (wrap eE "getting enactments failed"), none) ∧
    Update envN =
      (.error (wrap eN "getting nodes running kubernets-nmstate pods failed"), none) ∧
    Update envW = (.error eW, none) ∧
    Update envC = (.error ce, none) := by
  refine ⟨?_, ?_, ?_, ?_, ?_⟩
  · have hb : updateBody (envG 0) = .error (wrap eG "getting policy failed") := by
      simp [updateBody, hG]
    exact runRetry_fatal _ 4 0 none _ hb (by simp [wrap, hGc])
  · have hb : updateBody (envE 0) = .error (wrap eE "getting enactments failed") := by
      simp [updateBody, hEg, hEe]
    exact runRetry_fatal _ 4 0 none _ hb (by simp [wrap, hEc])
  · have hb : updateBody (envN 0) =
        .error (wrap eN "getting nodes running kubernets-nmstate pods failed") := by
      simp [updateBody, hNg, hNe, hNn]
    exact runRetry_fatal _ 4 0 none _ hb (by simp [wrap, hNc])
  · have hb : updateBody (envW 0) = .error eW := by
      simp [updateBody, hWg, hWe, hWn, hWw]
    exact runRetry_fatal _ 4 0 none _ hb hWc
  · have hb : ∀ i, updateBody (envC i) = .error ce := fun i => by
      simp [updateBody, (hC i).1, (hC i).2.1, (hC i).2.2.1, (hC i).2.2.2]
    exact runRetry_all_conflict _ ce hCc hb 4 0 none

/-- Environment whose policy fetch fails. -/
def envFetchErr : Nat → AttemptData := fun _ => ⟨.error errRead, .ok [], .ok [], .ok, 0⟩

/-- Environment whose enactment listing fails. -/
def envEnactErr : Nat → AttemptData :=
  fun _ => ⟨.ok examplePolicy, .error errRead, .ok [], .ok, 0⟩

/-- Environment whose node listing fails. -/
def envNodesErr : Nat → AttemptData :=
  fun _ => ⟨.ok examplePolicy, .ok [], .error errRead, .ok, 0⟩

/-- Environment whose status write fails with a non-conflict error. -/
def envWriteErr : Nat → AttemptData :=
  fun _ => ⟨.ok examplePolicy, .ok [], .ok [], .writeErr errRead, 0⟩

/-- Environment whose status write conflicts on every attempt. -/
def envAlwaysConflict : Nat → AttemptData :=
  fun _ => ⟨.ok examplePolicy, .ok [], .ok [], .writeErr errConflict, 0⟩

/-- Witness for C6: each failure scenario run on a concrete environment. -/
theorem update_error_propagation_witness :
    Update envFetchErr = (.error (wrap errRead "getting policy failed"), none) ∧
    Update envEnactErr = (.error (wrap errRead "getting enactments failed"), none) ∧
    Update envNodesErr =
      (.error (wrap errRead "getting nodes running kubernets-nmstate pods failed"), none) ∧
    Update envWriteErr = (.error errRead, none) ∧
    Update envAlwaysConflict = (.error errConflict, none) :=
  update_error_propagation envFetchErr envEnactErr envNodesErr envWriteErr
    envAlwaysConflict errRead errRead errRead errRead errConflict
    examplePolicy examplePolicy examplePolicy examplePolicy [] [] [] [] []
    rfl rfl rfl rfl rfl rfl rfl rfl rfl rfl rfl rfl rfl rfl
    (fun _ => ⟨rfl, rfl, rfl, rfl⟩) rfl

/-- C7: `Reset` fetches the policy, replaces its status conditions by the
empty list without computing any aggregate, and persists it; a write
conflict retries the whole fetch-clear-persist cycle so the re-fetched
policy is the one cleared and persisted; a non-conflict fetch error is
returned wrapped and a non-conflict write error is returned as is, with
nothing persisted. -/
theorem reset_clears_conditions
    (envS envF envW envC : Nat → AttemptData)
    (pS pW pC0 pC1 : Policy) (eF eW ce : GoError)
    (hSg : (envS 0).getPolicy = .ok pS) (hSw : (envS 0).writeResult = .ok)
    (hFg : (envF 0).getPolicy = .error eF) (hFc : eF.isConflict = false)
    (hWg : (envW 0).getPolicy = .ok pW) (hWw : (envW 0).writeResult = .writeErr eW)
    (hWc : eW.isConflict = false)
    (hC0g : (envC 0).getPolicy = .ok pC0) (hC0w : (envC 0).writeResult = .writeErr ce)
    (hce : ce.isConflict = true)
    (hC1g : (envC 1).getPolicy = .ok pC1) (hC1w : (envC 1).writeResult = .ok) :
    Reset envS = (.ok (), some { pS with statusConditions := ([] : ConditionList) }) ∧
    Reset envF = (.error (wrap eF "getting policy failed"), none) ∧
    Reset envW = (.error eW, none) ∧
    Reset envC = (.ok (), some { pC1 with statusConditions := ([] : ConditionList) }) := by
  refine ⟨?_, ?_, ?_, ?_⟩
  · have hb : resetBody (envS 0) =
        .ok { pS with statusConditions := ([] : ConditionList) } := by
      simp [resetBody, hSg, hSw]
    exact runRetry_ok _ 4 0 none _ hb
  · have hb : resetBody (envF 0) = .error (wrap eF "getting policy failed") := by
      simp [resetBody, hFg]
    exact runRetry_fatal _ 4 0 none _ hb (by simp [wrap, hFc])
  · have hb : resetBody (envW 0) = .error eW := by
      simp [resetBody, hWg, hWw]
    exact runRetry_fatal _ 4 0 none _ hb hWc
  · have hb0 : resetBody (envC 0) = .error ce := by
      simp [resetBody, hC0g, hC0w]
    have hb1 : resetBody (envC 1) =
        .ok { pC1 with statusConditions := ([] : ConditionList) } := by
      simp [resetBody, hC1g, hC1w]
    show runRetry (fun i => resetBody (envC i)) (4 + 1) 0 none = _
    rw [runRetry_conflict_step _ 4 0 none ce hb0 hce]
    show runRetry (fun i => resetBody (envC i)) (3 + 1) 1 (some ce) = _
    rw [runRetry_ok _ 3 1 (some ce) _ hb1]

/-- Environment whose every read and write succeeds. -/
def envAllOk : Nat → AttemptData := fun _ => ⟨.ok examplePolicy, .ok [], .ok [], .ok, 0⟩

/-- Witness for C7: the four Reset scenarios on concrete environments; a
conflict on the first attempt clears and persists the re-fetched policy. -/
theorem reset_clears_conditions_witness :
    Reset envAllOk = (.ok (), some ⟨"policy1", 1, "spec1", []⟩) ∧
    Reset envFetchErr = (.error (wrap errRead "getting policy failed"), none) ∧
    Reset envWriteErr = (.error errRead, none) ∧
    Reset envConflictThenOk = (.ok (), some ⟨"policy1", 2, "spec2", []⟩) :=
  reset_clears_conditions envAllOk envFetchErr envWriteErr envConflictThenOk
    examplePolicy examplePolicy examplePolicy examplePolicyB
    errRead errRead errConflict
    rfl rfl rfl rfl rfl rfl rfl rfl rfl rfl rfl rfl

/-- An `updateBody` success only rewrites the status conditions: the
persisted policy keeps the fetched policy's name, generation and spec. -/
theorem updateBody_frame (a : AttemptData) (p : Policy) (h : updateBody a = .ok p) :
    ∃ pol, a.getPolicy = .ok pol ∧ p.name = pol.name ∧
      p.generation = pol.generation ∧ p.spec = pol.spec := by
  cases hg : a.getPolicy with
  | error e => simp [updateBody, hg] at h
  | ok pol =>
    cases he : a.listEnactments with
    | error e => simp [updateBody, hg, he] at h
    | ok ens =>
      cases hn : a.listNodes with
      | error e => simp [updateBody, hg, he, hn] at h
      | ok ns =>
        cases hw : a.writeResult with
        | writeErr e => simp [updateBody, hg, he, hn, hw] at h
        | ok =>
          simp [updateBody, hg, he, hn, hw] at h
          exact ⟨pol, rfl, by rw [← h], by rw [← h], by rw [← h]⟩

/-- A `resetBody` success only rewrites the status conditions: the
persisted policy keeps the fetched policy's name, generation and spec. -/
theorem resetBody_frame (a : AttemptData) (p : Policy) (h : resetBody a = .ok p) :
    ∃ pol, a.getPolicy = .ok pol ∧ p.name = pol.name ∧
      p.generation = pol.generation ∧ p.spec = pol.spec := by
  cases hg : a.getPolicy with
  | error e => simp [resetBody, hg] at h
  | ok pol =>
    cases hw : a.writeResult with
    | writeErr e => simp [resetBody, hg, hw] at h
    | ok =>
      simp [resetBody, hg, hw] at h
      exact ⟨pol, rfl, by rw [← h], by rw [← h], by rw [← h]⟩

/-- C8: whatever policy `Update` or `Reset` persists agrees with the
policy fetched in the successful attempt on every field other than the
status conditions: name, generation and spec are written back exactly as
fetched. -/
theorem update_reset_frame (envU envR : Nat → AttemptData)
    (rU rR : Except GoError Unit) (pU pR : Policy)
    (hU : Update envU = (rU, some pU)) (hR : Reset envR = (rR, some pR)) :
    (∃ j pol, (envU j).getPolicy = .ok pol ∧ pU.name = pol.name ∧
      pU.generation = pol.generation ∧ pU.spec = pol.spec) ∧
    (∃ j pol, (envR j).getPolicy = .ok pol ∧ pR.name = pol.name ∧
      pR.generation = pol.generation ∧ pR.spec = pol.spec) := by
  constructor
  · obtain ⟨j, hj⟩ := runRetry_persisted (fun i => updateBody (envU i))
      defaultRetrySteps 0 none rU pU hU
    obtain ⟨pol, hpol, h1, h2, h3⟩ := updateBody_frame (envU j) pU hj
    exact ⟨j, pol, hpol, h1, h2, h3⟩
  · obtain ⟨j, hj⟩ := runRetry_persisted (fun i => resetBody (envR i))
      defaultRetrySteps 0 none rR pR hR
    obtain ⟨pol, hpol, h1, h2, h3⟩ := resetBody_frame (envR j) pR hj
    exact ⟨j, pol, hpol, h1, h2, h3⟩

/-- Witness for C8: concrete successful `Update` and `Reset` runs, whose
persisted policies keep the fetched name, generation and spec. -/
theorem update_reset_frame_witness :
    Update envAllOk = (.ok (), some ⟨"policy1", 1, "spec1",
      [⟨.Degraded, .statusFalse, .ConfigurationNoMatchingNode,
          "Policy does not match any node", 0, 0⟩,
        ⟨.Available, .statusTrue, .ConfigurationNoMatchingNode,
          "Policy does not match any node", 0, 0⟩]⟩) ∧
    Reset envAllOk = (.ok (), some ⟨"policy1", 1, "spec1", []⟩) ∧
    ((∃ j pol, (envAllOk j).getPolicy = .ok pol ∧
        (⟨"policy1", 1, "spec1",
          [⟨.Degraded, .statusFalse, .ConfigurationNoMatchingNode,
              "Policy does not match any node", 0, 0⟩,
            ⟨.Available, .statusTrue, .ConfigurationNoMatchingNode,
              "Policy does not match any node", 0, 0⟩]⟩ : Policy).name = pol.name ∧
        (⟨"policy1", 1, "spec1",
          [⟨.Degraded, .statusFalse, .ConfigurationNoMatchingNode,
              "Policy does not match any node", 0, 0⟩,
            ⟨.Available, .statusTrue, .ConfigurationNoMatchingNode,
              "Policy does not match any node", 0, 0⟩]⟩ : Policy).generation =
          pol.generation ∧
        (⟨"policy1", 1, "spec1",
          [⟨.Degraded, .statusFalse, .ConfigurationNoMatchingNode,
              "Policy does not match any node", 0, 0⟩,
            ⟨.Available, .statusTrue, .ConfigurationNoMatchingNode,
              "Policy does not match any node", 0, 0⟩]⟩ : Policy).spec = pol.spec) ∧
      (∃ j pol, (envAllOk j).getPolicy = .ok pol ∧
        (⟨"policy1", 1, "spec1", []⟩ : Policy).name = pol.name ∧
        (⟨"policy1", 1, "spec1", []⟩ : Policy).generation = pol.generation ∧
        (⟨"policy1", 1, "spec1", []⟩ : Policy).spec = pol.spec)) :=
  ⟨rfl, rfl,
    update_reset_frame envAllOk envAllOk (.ok ()) (.ok ()) _ _ rfl rfl⟩

end PolicyConditions
